import Mathlib

/-!
Verification of the overlay / dispersion core of a 2D optical-setup designer.

The geometry pipeline (point-to-segment distance, the dispersion fan of
spectral sub-rays emitted near "prism"-labelled components, the overlay
viewport transform) is embedded over the real numbers, mirroring the
TypeScript source of the canvas module.  The component registry, the
setup import/export path and the simulation gateway of the application
shell (`App.tsx`) are embedded over the rationals so that concrete runs
are decidable.
-/

namespace PhysicsSim

/-- The empty string (used where the source writes a literal default). -/
def emptyStr : String := ""

/-- A 2D point in world coordinates, `{x, y}` in the source. -/
structure Pt where
  x : ℝ
  y : ℝ

/-- `distancePointToSegment(px, py, x1, y1, x2, y2)` from the canvas module:
minimum Euclidean distance from `(px,py)` to the segment `[(x1,y1),(x2,y2)]`,
with `param = -1` (so the `(x1,y1)` endpoint is used) when the segment is
degenerate (`len_sq = 0`). -/
noncomputable def distancePointToSegment (px py x1 y1 x2 y2 : ℝ) : ℝ :=
  let A := px - x1
  let B := py - y1
  let C := x2 - x1
  let D := y2 - y1
  let dotAB := A * C + B * D
  let len_sq := C * C + D * D
  let param := if len_sq ≠ 0 then dotAB / len_sq else -1
  let xx := if param < 0 then x1 else if param > 1 then x2 else x1 + param * C
  let yy := if param < 0 then y1 else if param > 1 then y2 else y1 + param * D
  let dx := px - xx
  let dy := py - yy
  Real.sqrt (dx * dx + dy * dy)

/-- A traced ray, as delivered by the external simulation engine. -/
structure Ray where
  id : String
  points : List Pt
  color : String
  intensity : ℝ

/-- An optical component as the canvas sees it: only the id, the optional
display name (used to detect dispersive "prism" components) and the world
position are read by the dispersion engine. -/
structure Component where
  id : String
  displayName : Option String
  position : Pt

/-- A derived dispersion polyline (`Poly` in the source). -/
structure Poly where
  id : String
  points : List Pt
  color : String
  opacity : ℝ
  width : ℝ

/-- The fixed ordered spectral palette, violet to red. -/
def spectralColors : List String :=
  ["#8B00FF", "#0000FF", "#00FF00", "#FFFF00", "#FFA500", "#FF0000"]

/-- A component is dispersive when its display name equals "prism"
case-insensitively (`(c.displayName || '').toLowerCase() === 'prism'`). -/
def isPrism (c : Component) : Bool :=
  (c.displayName.getD emptyStr).toLower == "prism"

/-- One spectral sub-ray of the fan: spectral index `k`, fan anchored at
`pos`, segment unit direction `(ux, uy)`.  Mirrors the body of the `for k`
loop of `dispersionPolys`. -/
noncomputable def dispSubRay (rayId : String) (i k : ℕ) (pos : Pt) (ux uy : ℝ) : Poly :=
  let n := spectralColors.length
  let t : ℝ := ((n : ℝ) - 1 - (k : ℝ)) / ((n : ℝ) - 1)
  let angle := (t * 0.5 + 0.5) * 0.18
  let cosA := Real.cos angle
  let sinA := Real.sin angle
  let rx := ux * cosA - uy * sinA
  let ry := ux * sinA + uy * cosA
  let L : ℝ := 240
  let q : Pt := { x := pos.x + rx * L, y := pos.y + ry * L }
  { id := "disp-" ++ rayId ++ "-" ++ toString i ++ "-" ++ toString k
    points := [pos, q]
    color := spectralColors.getD k emptyStr
    opacity := 0.85
    width := 2 }

/-- The polylines `dispersionPolys` pushes for one `(segment, prism)` pair:
the segment is `(p1,p2)` (`i` its index in the ray), the unit direction uses
the `Math.hypot(dirX, dirY) || 1` fallback, and the fan of
`spectralColors.length` sub-rays is emitted exactly when the distance from
the prism's position to the segment is at most the proximity threshold 24. -/
noncomputable def segPrismPolys (rayId : String) (i : ℕ) (p1 p2 : Pt)
    (prism : Component) : List Poly :=
  let dirX := p2.x - p1.x
  let dirY := p2.y - p1.y
  let hyp := Real.sqrt (dirX * dirX + dirY * dirY)
  let segLen := if hyp = 0 then 1 else hyp
  let ux := dirX / segLen
  let uy := dirY / segLen
  let d := distancePointToSegment prism.position.x prism.position.y p1.x p1.y p2.x p2.y
  if d ≤ 24 then
    (List.range spectralColors.length).map fun k => dispSubRay rayId i k prism.position ux uy
  else []

/-- The consecutive point pairs of a ray's polyline, with their segment index:
the `for (let i = 0; i < pts.length - 1; i++)` loop of the source. -/
def raySegments (pts : List Pt) : List (ℕ × Pt × Pt) :=
  (pts.zip pts.tail).enum.map fun s => (s.1, s.2.1, s.2.2)

/-- `dispersionPolys` from the canvas module: the full dispersion engine.
Early-outs to `[]` when the ray list or the prism list is empty; otherwise,
for each ray, each consecutive segment and each prism, appends the fan
produced by `segPrismPolys`. -/
noncomputable def dispersionPolys (rays : List Ray) (prisms : List Component) :
    List Poly :=
  if rays.isEmpty || prisms.isEmpty then []
  else
    rays.flatMap fun ray =>
      (raySegments ray.points).flatMap fun seg =>
        prisms.flatMap fun prism => segPrismPolys ray.id seg.1 seg.2.1 seg.2.2 prism

/-- Euclidean distance between two points, used to state the spec's
point-to-segment claims. -/
noncomputable def eucDist (px py qx qy : ℝ) : ℝ :=
  Real.sqrt ((px - qx) * (px - qx) + (py - qy) * (py - qy))

/-- Length of a two-point polyline (0 for any other shape); used to state
claims about emitted sub-ray lengths. -/
noncomputable def polyLength (q : Poly) : ℝ :=
  match q.points with
  | [a, b] => eucDist a.x a.y b.x b.y
  | _ => 0

/-- The spec's deflection angle for spectral index `k` with `K = 6` and
`θ_max = 0.18`: `θ_k = (((K-1-k)/(K-1)) * 0.5 + 0.5) * 0.18`. -/
noncomputable def deflectionAngle (k : ℕ) : ℝ :=
  ((((6 : ℝ) - 1 - (k : ℝ)) / ((6 : ℝ) - 1)) * 0.5 + 0.5) * 0.18

/-- Standard 2D rotation of a vector by angle `θ`. -/
noncomputable def rot2 (θ : ℝ) (v : ℝ × ℝ) : ℝ × ℝ :=
  (v.1 * Real.cos θ - v.2 * Real.sin θ, v.1 * Real.sin θ + v.2 * Real.cos θ)

/-- Unit direction of the segment from `p1` to `p2` (well-defined for a
non-degenerate segment). -/
noncomputable def unitDir (p1 p2 : Pt) : ℝ × ℝ :=
  let len := Real.sqrt ((p2.x - p1.x) * (p2.x - p1.x) + (p2.y - p1.y) * (p2.y - p1.y))
  ((p2.x - p1.x) / len, (p2.y - p1.y) / len)

/-- The unclamped parametric projection `t = dot(p-p1, p2-p1) / |p2-p1|²`
of the spec's point-to-segment algorithm. -/
noncomputable def projParam (px py x1 y1 x2 y2 : ℝ) : ℝ :=
  ((px - x1) * (x2 - x1) + (py - y1) * (y2 - y1)) /
    ((x2 - x1) * (x2 - x1) + (y2 - y1) * (y2 - y1))

/-- Clamp to the interval `[0,1]`. -/
noncomputable def clamp01 (t : ℝ) : ℝ := max 0 (min 1 t)

/-! ### Application shell: registry, viewport transform, import/export, gateway

These mirror `App.tsx` and the viewport-transform reads of the canvas module.
Numbers are rationals so that concrete runs are decidable. -/

namespace Registry

/-- The component kinds (`ComponentType` in the source). -/
inductive CKind where
  | source
  | mirror
  | lens
  | detector
deriving DecidableEq, Repr

/-- The property fields that occur across all kinds. -/
inductive PField where
  | angle
  | wavelength
  | intensity
  | reflectivity
  | width
  | focalLength
  | diameter
  | refractiveIndex
  | sensitivity
deriving DecidableEq, Repr, Fintype

/-- A properties bundle as a JS object: each field present or absent.
The stored bundle of a well-formed component holds exactly the fields of
its kind. -/
structure RProps where
  angle : Option ℚ := none
  wavelength : Option ℚ := none
  intensity : Option ℚ := none
  reflectivity : Option ℚ := none
  width : Option ℚ := none
  focalLength : Option ℚ := none
  diameter : Option ℚ := none
  refractiveIndex : Option ℚ := none
  sensitivity : Option ℚ := none
deriving DecidableEq, Repr

/-- Field lookup in a properties bundle. -/
def RProps.get (p : RProps) : PField → Option ℚ
  | .angle => p.angle
  | .wavelength => p.wavelength
  | .intensity => p.intensity
  | .reflectivity => p.reflectivity
  | .width => p.width
  | .focalLength => p.focalLength
  | .diameter => p.diameter
  | .refractiveIndex => p.refractiveIndex
  | .sensitivity => p.sensitivity

/-- Which property fields are valid for which kind (the per-kind bundles
of the type definitions: source has angle/wavelength/intensity, mirror has
reflectivity/width, lens has focalLength/diameter/refractiveIndex, detector
has sensitivity/width). -/
def validForKind : CKind → PField → Bool
  | .source, .angle => true
  | .source, .wavelength => true
  | .source, .intensity => true
  | .mirror, .reflectivity => true
  | .mirror, .width => true
  | .lens, .focalLength => true
  | .lens, .diameter => true
  | .lens, .refractiveIndex => true
  | .detector, .sensitivity => true
  | .detector, .width => true
  | _, _ => false

/-- A bundle matches a kind when every present field is valid for the kind. -/
def propsMatchKind (k : CKind) (p : RProps) : Prop :=
  ∀ f : PField, (p.get f).isSome → validForKind k f = true

instance (k : CKind) (p : RProps) : Decidable (propsMatchKind k p) := by
  unfold propsMatchKind; infer_instance

/-- `getDefaultProperties` from the helpers module. -/
def getDefaultProperties : CKind → RProps
  | .source => { angle := some 0, wavelength := some 632.8, intensity := some 100 }
  | .mirror => { reflectivity := some 95, width := some 50 }
  | .lens => { focalLength := some 100, diameter := some 50, refractiveIndex := some 1.5 }
  | .detector => { sensitivity := some 90, width := some 50 }

/-- A stored optical component (`OpticalComponent`). -/
structure RComponent where
  id : String
  kind : CKind
  position : ℚ × ℚ
  rotation : ℚ
  displayName : Option String := none
  properties : RProps
deriving DecidableEq, Repr

/-- A shallow update object (TS `Partial<OpticalComponent>`): the fields
present in the update.  The shell's callers send position, rotation,
display-name or properties updates. -/
structure CUpdate where
  position : Option (ℚ × ℚ) := none
  rotation : Option ℚ := none
  displayName : Option (Option String) := none
  properties : Option RProps := none
deriving DecidableEq, Repr

/-- The JS spread `{...comp, ...updates}`: every field present in the
update replaces the component's field wholesale (no nesting, no
validation). -/
def applyUpdate (c : RComponent) (u : CUpdate) : RComponent :=
  { c with
    position := u.position.getD c.position
    rotation := u.rotation.getD c.rotation
    displayName := u.displayName.getD c.displayName
    properties := u.properties.getD c.properties }

/-- `handleUpdateComponent(id, updates)` from `App.tsx`: map over the list,
spreading the update into the component whose id matches. -/
def handleUpdateComponent (comps : List RComponent) (id : String) (u : CUpdate) :
    List RComponent :=
  comps.map fun c => if c.id = id then applyUpdate c u else c

/-- Truncation toward zero on ℚ, as JS `Math.trunc` / the `%` operator use. -/
def qtrunc (q : ℚ) : ℤ :=
  if 0 ≤ q then ⌊q⌋ else ⌈q⌉

/-- The JS remainder operator on numbers: `a % b = a - b * trunc(a / b)`. -/
def jsMod (a b : ℚ) : ℚ :=
  a - b * (qtrunc (a / b) : ℚ)

/-- The spec's rotation normalization `((r % 360) + 360) % 360`. -/
def normRot360 (r : ℚ) : ℚ :=
  jsMod (jsMod r 360 + 360) 360

end Registry

/-! ### Viewport transform and overlay mapping -/

/-- The diagram canvas's viewport transform `{translateX, translateY, zoom}`
(the React Flow store's `transform` triple `[tx, ty, zoom]`). -/
structure Transform where
  translateX : ℚ
  translateY : ℚ
  zoom : ℚ
deriving DecidableEq, Repr

/-- `transform?.[0] ?? 0`. -/
def txOf (t : Option Transform) : ℚ := (t.map Transform.translateX).getD 0

/-- `transform?.[1] ?? 0`. -/
def tyOf (t : Option Transform) : ℚ := (t.map Transform.translateY).getD 0

/-- `transform?.[2] ?? 1`. -/
def zoomOf (t : Option Transform) : ℚ := (t.map Transform.zoom).getD 1

/-- The SVG group attribute `translate(tx, ty) scale(zoom)` applied to a
child coordinate `p`: first scale, then translate, so the screen point is
`(tx + zoom * x, ty + zoom * y)`. -/
def svgTranslateScale (tx ty z : ℚ) (p : ℚ × ℚ) : ℚ × ℚ :=
  (tx + z * p.1, ty + z * p.2)

/-- The overlay renderer's world-to-screen mapping: the tracked transform
(with per-entry defaults) fed into the overlay group's SVG transform. -/
def overlayToScreen (t : Option Transform) (p : ℚ × ℚ) : ℚ × ℚ :=
  svgTranslateScale (txOf t) (tyOf t) (zoomOf t) p

/-! ### Setup import/export and the simulation gateway

`App.tsx` stores the simulation result opaquely (it only ever replaces or
clears it), so the application state is parametrized by the result type. -/

namespace Shell

open Registry

/-- The sweep settings `{freqStart, freqStop, freqPoints}`. -/
structure Settings where
  freqStart : ℚ
  freqStop : ℚ
  freqPoints : ℚ
deriving DecidableEq, Repr

/-- The application state held by `App`: component list, selection,
sweep settings and latest simulation result. -/
structure AppState (ρ : Type) where
  components : List RComponent
  selectedId : Option String
  simulationSettings : Settings
  simulationResult : Option ρ
deriving DecidableEq

/-- The object `handleExportSetup` serializes:
`{components, simulationSettings}`. -/
structure Setup where
  components : List RComponent
  simulationSettings : Settings
deriving DecidableEq

/-- `handleExportSetup`: download `{components, simulationSettings}` as JSON. -/
def exportSetup {ρ : Type} (s : AppState ρ) : Setup :=
  { components := s.components, simulationSettings := s.simulationSettings }

/-- A JSON field as the import path sees it: absent, present but not of the
expected shape, or a well-shaped value. -/
inductive JsonField (α : Type) where
  | absent
  | invalid
  | value (a : α)
deriving DecidableEq

/-- An imported file after `JSON.parse`: either the parse threw, or it
yielded an object with (possibly missing / malformed) `components`,
`simulationSettings` and legacy `settings` fields. -/
inductive ImportFile where
  | unparseable
  | parsed (components : JsonField (List RComponent))
      (simulationSettings : Option Settings) (settings : Option Settings)
deriving DecidableEq

/-- The file a JSON round-trip of an exported setup parses back to: the
`components` array and the `simulationSettings` object, both intact
(finite JS numbers and strings survive `JSON.stringify`/`JSON.parse`
exactly). -/
def fileOfSetup (st : Setup) : ImportFile :=
  .parsed (.value st.components) (some st.simulationSettings) none

/-- `handleImportSetup` from `App.tsx`, returning the new state and whether
the failure alert fired.  On a parse error: alert, nothing else.  On a
parsed file: `components` is replaced only when the field is a true array
(`setup.components && Array.isArray(setup.components)`); the settings are
replaced when `setup.simulationSettings || setup.settings` is present; the
stored simulation result and the selection are then cleared
unconditionally. -/
def importSetup {ρ : Type} (f : ImportFile) (s : AppState ρ) : AppState ρ × Bool :=
  match f with
  | .unparseable => (s, true)
  | .parsed comps ss st =>
    let components := match comps with
      | .value l => l
      | _ => s.components
    let settings := (ss.orElse fun _ => st).getD s.simulationSettings
    ({ components := components
       selectedId := none
       simulationSettings := settings
       simulationResult := none }, false)

/-- Export followed by import of the downloaded file, on the same state. -/
def roundTrip {ρ : Type} (s : AppState ρ) : AppState ρ × Bool :=
  importSetup (fileOfSetup (exportSetup s)) s

/-! #### Simulation gateway

`handleRunSimulation` awaits the engine and then runs
`setSimulationResult(result)` with no staleness check: the continuation of
every in-flight call stores its payload when it arrives.  The event-loop
interleaving is modelled as a trace of start/completion events; the call id
carried by a completion identifies which earlier `run` the response belongs
to, and the step function ignores it exactly as the code does. -/

/-- The gateway's observable state: the stored result and the
`isSimulating` flag. -/
structure GState (ρ : Type) where
  result : Option ρ
  isSimulating : Bool
deriving DecidableEq

/-- One event on the UI event loop: a `run` call starts (`setIsSimulating(true)`),
or the awaited response of call `cid` arrives and its continuation runs —
on success `setSimulationResult(r)` then `setIsSimulating(false)` in the
`finally`, on failure only the alert and the `finally`. -/
inductive GEvent (ρ : Type) where
  | start (cid : ℕ)
  | complete (cid : ℕ) (r : ρ)
  | fail (cid : ℕ)
deriving DecidableEq

/-- The effect of one event on the gateway state, read off
`handleRunSimulation`: a completion stores its payload unconditionally —
there is no comparison of `cid` against a latest-call marker. -/
def gstep {ρ : Type} (s : GState ρ) : GEvent ρ → GState ρ
  | .start _ => { s with isSimulating := true }
  | .complete _ r => { result := some r, isSimulating := false }
  | .fail _ => { s with isSimulating := false }

/-- A whole interleaving: fold the events in arrival order. -/
def runTrace {ρ : Type} (s : GState ρ) (tr : List (GEvent ρ)) : GState ρ :=
  tr.foldl gstep s

/-- Whether an event is a successful completion. -/
def GEvent.isComplete {ρ : Type} : GEvent ρ → Bool
  | .complete _ _ => true
  | _ => false

end Shell

/-! ### Concrete inputs used by witnesses and counterexamples -/

/-- A dispersive component at the origin. -/
def wPrism : Component :=
  { id := "prism1", displayName := some "Prism", position := { x := 0, y := 0 } }

/-- A ray whose single segment stays 1000 world units away from the origin. -/
noncomputable def wFarRay : Ray :=
  { id := "ray1", points := [{ x := 1000, y := 0 }, { x := 1000, y := 1 }],
    color := "#ff0000", intensity := 100 }

/-- A mirror with default properties, used in registry runs. -/
def wMirror : Registry.RComponent :=
  { id := "m1", kind := .mirror, position := (200, 200), rotation := 0,
    properties := Registry.getDefaultProperties .mirror }

/-- A properties bundle holding only a `focalLength` field (invalid for a
mirror). -/
def wBadProps : Registry.RProps := { focalLength := some 5 }

/-- An application state with one mirror, a selection and a stored
simulation result. -/
def wState : Shell.AppState ℕ :=
  { components := [wMirror], selectedId := some "m1",
    simulationSettings := { freqStart := 400, freqStop := 700, freqPoints := 10 },
    simulationResult := some 7 }

/-! ### Shared lemmas -/

/-- Closed form of `distancePointToSegment`: the three projection branches
for a non-degenerate segment, the `(x1,y1)` endpoint for a degenerate one. -/
lemma distancePointToSegment_eq (px py x1 y1 x2 y2 : ℝ) :
    distancePointToSegment px py x1 y1 x2 y2 =
      if (x2 - x1) * (x2 - x1) + (y2 - y1) * (y2 - y1) ≠ 0 then
        if projParam px py x1 y1 x2 y2 < 0 then eucDist px py x1 y1
        else if 1 < projParam px py x1 y1 x2 y2 then eucDist px py x2 y2
        else
          eucDist px py (x1 + projParam px py x1 y1 x2 y2 * (x2 - x1))
            (y1 + projParam px py x1 y1 x2 y2 * (y2 - y1))
      else eucDist px py x1 y1 := by
  simp only [distancePointToSegment, projParam, eucDist]
  split_ifs with h h1 h2 h3 h4 <;> first
    | rfl
    | linarith

/-- A 2D rotation preserves the squared norm. -/
lemma rot_preserves_norm_sq (θ ux uy : ℝ) :
    (ux * Real.cos θ - uy * Real.sin θ) * (ux * Real.cos θ - uy * Real.sin θ) +
      (ux * Real.sin θ + uy * Real.cos θ) * (ux * Real.sin θ + uy * Real.cos θ) =
      ux * ux + uy * uy := by
  linear_combination (ux * ux + uy * uy) * Real.sin_sq_add_cos_sq θ

/-- A normalized nonzero vector has squared norm 1. -/
lemma unit_norm_sq (dx dy : ℝ) (h : ¬(dx = 0 ∧ dy = 0)) :
    dx / Real.sqrt (dx * dx + dy * dy) * (dx / Real.sqrt (dx * dx + dy * dy)) +
      dy / Real.sqrt (dx * dx + dy * dy) * (dy / Real.sqrt (dx * dx + dy * dy)) = 1 := by
  have hpos : 0 < dx * dx + dy * dy := by
    rcases not_and_or.mp h with h1 | h1
    · nlinarith [mul_self_pos.mpr h1, mul_self_nonneg dy]
    · nlinarith [mul_self_pos.mpr h1, mul_self_nonneg dx]
  have hs : Real.sqrt (dx * dx + dy * dy) * Real.sqrt (dx * dx + dy * dy) = dx * dx + dy * dy :=
    Real.mul_self_sqrt (le_of_lt hpos)
  have hsne : Real.sqrt (dx * dx + dy * dy) ≠ 0 := Real.sqrt_ne_zero'.mpr hpos
  field_simp

/-- A trace without successful completions leaves the stored result alone. -/
lemma runTrace_no_complete {ρ : Type} (post : List (Shell.GEvent ρ)) (s : Shell.GState ρ)
    (hpost : ∀ e ∈ post, e.isComplete = false) :
    (Shell.runTrace s post).result = s.result := by
  induction post generalizing s with
  | nil => rfl
  | cons e tl ih =>
    cases e with
    | start cid => exact ih _ fun e he => hpost e (List.mem_cons_of_mem _ he)
    | fail cid => exact ih _ fun e he => hpost e (List.mem_cons_of_mem _ he)
    | complete cid r =>
      exact absurd (hpost _ (List.mem_cons_self _ _)) (by simp [Shell.GEvent.isComplete])

/-! ### Claims -/

/-- C1: for every dispersive component `c` and non-degenerate segment
`(p1,p2)` within the proximity threshold 24 of `c.position`, the dispersion
engine emits exactly `K = 6` sub-ray polylines for the pair, the `k`-th
being the segment's unit direction rotated by
`θ_k = (((K-1-k)/(K-1))*0.5 + 0.5) * 0.18` and scaled to length `L = 240`
from `c.position`; every sub-ray originates at `c.position` and has length
exactly 240, and the deflection angle is strictly decreasing in the
spectral index. -/
theorem c1_dispersion_fan_geometry (rid : String) (i : ℕ) (p1 p2 : Pt) (c : Component)
    (hnd : p1 ≠ p2)
    (hnear : distancePointToSegment c.position.x c.position.y p1.x p1.y p2.x p2.y ≤ 24) :
    (segPrismPolys rid i p1 p2 c).length = 6 ∧
    (∀ k, k < 6 → (segPrismPolys rid i p1 p2 c)[k]? =
      some { id := "disp-" ++ rid ++ "-" ++ toString i ++ "-" ++ toString k
             points := [c.position,
               { x := c.position.x + (rot2 (deflectionAngle k) (unitDir p1 p2)).1 * 240,
                 y := c.position.y + (rot2 (deflectionAngle k) (unitDir p1 p2)).2 * 240 }]
             color := spectralColors.getD k emptyStr
             opacity := 0.85
             width := 2 }) ∧
    (∀ q ∈ segPrismPolys rid i p1 p2 c,
      q.points.head? = some c.position ∧ polyLength q = 240) ∧
    (∀ k k' : ℕ, k < k' → k' < 6 → deflectionAngle k' < deflectionAngle k) := by
  have hdir : ¬(p2.x - p1.x = 0 ∧ p2.y - p1.y = 0) := by
    rintro ⟨hx, hy⟩
    apply hnd
    cases p1; cases p2
    simp only [Pt.mk.injEq]
    constructor <;> [linarith [hx]; linarith [hy]]
  have hpos : 0 < (p2.x - p1.x) * (p2.x - p1.x) + (p2.y - p1.y) * (p2.y - p1.y) := by
    rcases not_and_or.mp hdir with h1 | h1
    · nlinarith [mul_self_pos.mpr h1, mul_self_nonneg (p2.y - p1.y)]
    · nlinarith [mul_self_pos.mpr h1, mul_self_nonneg (p2.x - p1.x)]
  have hhyp : Real.sqrt ((p2.x - p1.x) * (p2.x - p1.x) + (p2.y - p1.y) * (p2.y - p1.y)) ≠ 0 :=
    ne_of_gt (Real.sqrt_pos.mpr hpos)
  have hout : segPrismPolys rid i p1 p2 c =
      (List.range 6).map fun k =>
        dispSubRay rid i k c.position (unitDir p1 p2).1 (unitDir p1 p2).2 := by
    simp only [segPrismPolys, unitDir, if_neg hhyp, if_pos hnear]
    rfl
  refine ⟨?_, ?_, ?_, ?_⟩
  · rw [hout]; simp
  · intro k hk
    rw [hout, List.getElem?_map, List.getElem?_range hk]
    simp only [Option.map_some']
    congr 1
  · intro q hq
    rw [hout] at hq
    obtain ⟨k, hk, rfl⟩ := List.mem_map.mp hq
    constructor
    · rfl
    · have hu : (unitDir p1 p2).1 * (unitDir p1 p2).1 +
          (unitDir p1 p2).2 * (unitDir p1 p2).2 = 1 :=
        unit_norm_sq (p2.x - p1.x) (p2.y - p1.y) hdir
      simp only [polyLength, dispSubRay, eucDist]
      set u1 := (unitDir p1 p2).1
      set u2 := (unitDir p1 p2).2
      set θ := (((spectralColors.length : ℝ) - 1 - (k : ℝ)) /
        ((spectralColors.length : ℝ) - 1) * 0.5 + 0.5) * 0.18 with hθ
      have hr : (u1 * Real.cos θ - u2 * Real.sin θ) * (u1 * Real.cos θ - u2 * Real.sin θ) +
          (u1 * Real.sin θ + u2 * Real.cos θ) * (u1 * Real.sin θ + u2 * Real.cos θ) = 1 := by
        rw [rot_preserves_norm_sq]
        exact hu
      have harg : (c.position.x - (c.position.x + (u1 * Real.cos θ - u2 * Real.sin θ) * 240)) *
            (c.position.x - (c.position.x + (u1 * Real.cos θ - u2 * Real.sin θ) * 240)) +
          (c.position.y - (c.position.y + (u1 * Real.sin θ + u2 * Real.cos θ) * 240)) *
            (c.position.y - (c.position.y + (u1 * Real.sin θ + u2 * Real.cos θ) * 240)) =
          57600 := by
        linear_combination (57600 : ℝ) * hr
      rw [harg, show (57600 : ℝ) = 240 ^ 2 by norm_num]
      exact Real.sqrt_sq (by norm_num)
  · intro k k' hkk h6
    have hk : (k : ℝ) < (k' : ℝ) := by exact_mod_cast hkk
    simp only [deflectionAngle]
    nlinarith [hk]

/-- C1 witness: the prism at the origin with the horizontal segment from
`(-10,0)` to `(10,0)` (distance 0 ≤ 24) gets exactly 6 sub-rays. -/
theorem c1_dispersion_fan_geometry_witness :
    (segPrismPolys "ray1" 0 { x := -10, y := 0 } { x := 10, y := 0 } wPrism).length = 6 :=
  (c1_dispersion_fan_geometry "ray1" 0 { x := -10, y := 0 } { x := 10, y := 0 } wPrism
    (by intro h; exact absurd (congrArg Pt.x h) (by norm_num))
    (by
      show distancePointToSegment 0 0 (-10) 0 10 0 ≤ 24
      have h : distancePointToSegment 0 0 (-10) 0 10 0 = 0 := by
        norm_num [distancePointToSegment]
      rw [h]; norm_num)).1

/-- C2: `distancePointToSegment` returns the Euclidean norm from the point
to `p1 + clamp(t,0,1)·(p2-p1)` for a non-degenerate segment; it returns 0
whenever the point lies on the segment, returns the distance to the nearest
endpoint whenever the unclamped projection falls outside `[0,1]`, and for a
degenerate segment returns the distance to `p1`. -/
theorem c2_point_to_segment_distance (px py x1 y1 x2 y2 : ℝ) :
    ((x2 - x1) * (x2 - x1) + (y2 - y1) * (y2 - y1) ≠ 0 →
      distancePointToSegment px py x1 y1 x2 y2 =
        eucDist px py (x1 + clamp01 (projParam px py x1 y1 x2 y2) * (x2 - x1))
          (y1 + clamp01 (projParam px py x1 y1 x2 y2) * (y2 - y1))) ∧
    (∀ s : ℝ, 0 ≤ s → s ≤ 1 → px = x1 + s * (x2 - x1) → py = y1 + s * (y2 - y1) →
      distancePointToSegment px py x1 y1 x2 y2 = 0) ∧
    ((x2 - x1) * (x2 - x1) + (y2 - y1) * (y2 - y1) ≠ 0 →
      projParam px py x1 y1 x2 y2 < 0 →
      distancePointToSegment px py x1 y1 x2 y2 =
        min (eucDist px py x1 y1) (eucDist px py x2 y2)) ∧
    ((x2 - x1) * (x2 - x1) + (y2 - y1) * (y2 - y1) ≠ 0 →
      1 < projParam px py x1 y1 x2 y2 →
      distancePointToSegment px py x1 y1 x2 y2 =
        min (eucDist px py x1 y1) (eucDist px py x2 y2)) ∧
    (x2 = x1 → y2 = y1 →
      distancePointToSegment px py x1 y1 x2 y2 = eucDist px py x1 y1) := by
  have hL0 : 0 ≤ (x2 - x1) * (x2 - x1) + (y2 - y1) * (y2 - y1) := by
    nlinarith [sq_nonneg (x2 - x1), sq_nonneg (y2 - y1)]
  refine ⟨?_, ?_, ?_, ?_, ?_⟩
  · intro hL
    rw [distancePointToSegment_eq, if_pos hL]
    set t := projParam px py x1 y1 x2 y2 with ht
    split_ifs with h1 h2
    · have hc : clamp01 t = 0 := by
        simp only [clamp01]
        rw [min_eq_right (le_of_lt (lt_trans h1 one_pos)), max_eq_left (le_of_lt h1)]
      rw [hc]; norm_num
    · have hc : clamp01 t = 1 := by
        simp only [clamp01]
        rw [min_eq_left (le_of_lt h2), max_eq_right zero_le_one]
      rw [hc]
      have e1 : x1 + 1 * (x2 - x1) = x2 := by ring
      have e2 : y1 + 1 * (y2 - y1) = y2 := by ring
      rw [e1, e2]
    · have hc : clamp01 t = t := by
        simp only [clamp01]
        rw [min_eq_right (not_lt.mp h2), max_eq_right (not_lt.mp h1)]
      rw [hc]
  · intro s hs0 hs1 hx hy
    by_cases hL : (x2 - x1) * (x2 - x1) + (y2 - y1) * (y2 - y1) = 0
    · have hC : x2 - x1 = 0 := by nlinarith [sq_nonneg (x2 - x1), sq_nonneg (y2 - y1)]
      have hD : y2 - y1 = 0 := by nlinarith [sq_nonneg (x2 - x1), sq_nonneg (y2 - y1)]
      rw [distancePointToSegment_eq, if_neg (not_not.mpr hL)]
      subst hx hy
      simp only [eucDist, hC, hD, mul_zero, add_sub_cancel_left]
      simp
    · have ht : projParam px py x1 y1 x2 y2 = s := by
        subst hx hy
        simp only [projParam, add_sub_cancel_left]
        field_simp
        ring
      rw [distancePointToSegment_eq, if_pos hL, ht]
      rw [if_neg (not_lt.mpr hs0), if_neg (not_lt.mpr hs1)]
      subst hx hy
      simp only [eucDist]
      rw [show x1 + s * (x2 - x1) - (x1 + s * (x2 - x1)) = 0 by ring,
        show y1 + s * (y2 - y1) - (y1 + s * (y2 - y1)) = 0 by ring]
      simp
  · intro hL ht
    rw [distancePointToSegment_eq, if_pos hL, if_pos ht]
    have hLpos : 0 < (x2 - x1) * (x2 - x1) + (y2 - y1) * (y2 - y1) :=
      lt_of_le_of_ne hL0 (Ne.symm hL)
    have hdot : (px - x1) * (x2 - x1) + (py - y1) * (y2 - y1) < 0 := by
      by_contra hge
      push_neg at hge
      exact absurd (div_nonneg hge (le_of_lt hLpos)) (not_le.mpr ht)
    have hle : eucDist px py x1 y1 ≤ eucDist px py x2 y2 := by
      apply Real.sqrt_le_sqrt
      nlinarith [hdot, hLpos]
    exact (min_eq_left hle).symm
  · intro hL ht
    rw [distancePointToSegment_eq, if_pos hL,
      if_neg (not_lt.mpr (le_of_lt (lt_trans one_pos ht))), if_pos ht]
    have hLpos : 0 < (x2 - x1) * (x2 - x1) + (y2 - y1) * (y2 - y1) :=
      lt_of_le_of_ne hL0 (Ne.symm hL)
    have hdot : (x2 - x1) * (x2 - x1) + (y2 - y1) * (y2 - y1) <
        (px - x1) * (x2 - x1) + (py - y1) * (y2 - y1) := by
      have := (one_lt_div hLpos).mp ht
      linarith
    have hle : eucDist px py x2 y2 ≤ eucDist px py x1 y1 := by
      apply Real.sqrt_le_sqrt
      nlinarith [hdot, hLpos]
    exact (min_eq_right hle).symm
  · intro hx hy
    subst hx hy
    rw [distancePointToSegment_eq]
    simp

/-- C2 witness: for the point `(-1,0)` and the segment `(0,0)-(1,0)` the
projection is negative, so the distance is the nearer endpoint distance. -/
theorem c2_point_to_segment_distance_witness :
    distancePointToSegment (-1) 0 0 0 1 0 = min (eucDist (-1) 0 0 0) (eucDist (-1) 0 1 0) :=
  (c2_point_to_segment_distance (-1) 0 0 0 1 0).2.2.1 (by norm_num) (by norm_num [projParam])

/-- C3 counterexample: updating the rotation of the stored mirror to 450
stores 450 verbatim, while the claimed normalization `((450 % 360)+360)%360`
is 90 — the stored value is not normalized into `[0,360)`. -/
theorem c3_counterexample :
    (Registry.handleUpdateComponent [wMirror] "m1"
        { rotation := some 450 }).map Registry.RComponent.rotation = [450] ∧
    Registry.normRot360 450 = 90 ∧ (450 : ℚ) ≠ 90 :=
  ⟨rfl, by norm_num [Registry.normRot360, Registry.jsMod, Registry.qtrunc], by norm_num⟩

/-- C3 (amended): the registry stores the rotation value of an update
verbatim — the component matching the id ends up with rotation exactly `r`,
with no `((r % 360)+360)%360` normalization applied. -/
theorem c3_rotation_stored_verbatim (comps : List Registry.RComponent) (id : String)
    (u : Registry.CUpdate) (r : ℚ) (c' : Registry.RComponent)
    (hr : u.rotation = some r)
    (hc' : c' ∈ Registry.handleUpdateComponent comps id u) (hid : c'.id = id) :
    c'.rotation = r := by
  obtain ⟨c, hc, hcc⟩ := List.mem_map.mp hc'
  by_cases h : c.id = id
  · rw [if_pos h] at hcc
    subst hcc
    simp [Registry.applyUpdate, hr]
  · rw [if_neg h] at hcc
    subst hcc
    exact absurd hid h

/-- C3 witness: the update of `wMirror` to rotation 450 stores 450. -/
theorem c3_rotation_stored_verbatim_witness :
    (Registry.applyUpdate wMirror { rotation := some 450 }).rotation = 450 :=
  c3_rotation_stored_verbatim [wMirror] "m1" { rotation := some 450 } 450
    (Registry.applyUpdate wMirror { rotation := some 450 }) rfl
    (by simp [Registry.handleUpdateComponent, wMirror]) rfl

/-- C4 counterexample: an update carrying a `focalLength`-only bundle,
applied to a stored mirror, is stored wholesale: the resulting properties
bundle holds a field that is invalid for the mirror kind, so it does not
match the kind. -/
theorem c4_counterexample :
    (Registry.handleUpdateComponent [wMirror] "m1"
        { properties := some wBadProps }).map Registry.RComponent.properties = [wBadProps] ∧
    (wBadProps.get .focalLength).isSome = true ∧
    Registry.validForKind .mirror .focalLength = false ∧
    ¬ Registry.propsMatchKind .mirror wBadProps :=
  ⟨rfl, rfl, rfl, by decide⟩

/-- C4 (amended): the registry's update replaces the stored properties
bundle verbatim with the update's bundle — no per-kind validation happens,
so fields invalid for the component's kind are stored rather than
rejected. -/
theorem c4_properties_stored_verbatim (comps : List Registry.RComponent) (id : String)
    (u : Registry.CUpdate) (p : Registry.RProps) (c' : Registry.RComponent)
    (hp : u.properties = some p)
    (hc' : c' ∈ Registry.handleUpdateComponent comps id u) (hid : c'.id = id) :
    c'.properties = p := by
  obtain ⟨c, hc, hcc⟩ := List.mem_map.mp hc'
  by_cases h : c.id = id
  · rw [if_pos h] at hcc
    subst hcc
    simp [Registry.applyUpdate, hp]
  · rw [if_neg h] at hcc
    subst hcc
    exact absurd hid h

/-- C4 witness: the invalid `focalLength` bundle replaces the mirror's
stored bundle. -/
theorem c4_properties_stored_verbatim_witness :
    (Registry.applyUpdate wMirror { properties := some wBadProps }).properties = wBadProps :=
  c4_properties_stored_verbatim [wMirror] "m1" { properties := some wBadProps } wBadProps
    (Registry.applyUpdate wMirror { properties := some wBadProps }) rfl
    (by simp [Registry.handleUpdateComponent, wMirror]) rfl

/-- C5: the overlay maps a world point `(x,y)` under transform
`{translateX, translateY, zoom}` to `(x*zoom+translateX, y*zoom+translateY)`;
in particular `(50,50)` under `{10,-5,2}` maps to `(110,95)`, and a missing
transform acts as the identity `{0,0,1}`. -/
theorem c5_overlay_world_to_screen :
    (∀ (t : Transform) (p : ℚ × ℚ),
      overlayToScreen (some t) p =
        (p.1 * t.zoom + t.translateX, p.2 * t.zoom + t.translateY)) ∧
    overlayToScreen (some { translateX := 10, translateY := -5, zoom := 2 }) (50, 50) =
      (110, 95) ∧
    (∀ p : ℚ × ℚ, overlayToScreen none p = p) := by
  refine ⟨?_, ?_, ?_⟩
  · intro t p
    simp only [overlayToScreen, svgTranslateScale, txOf, tyOf, zoomOf, Option.map_some',
      Option.getD_some]
    exact Prod.ext (by ring) (by ring)
  · norm_num [overlayToScreen, svgTranslateScale, txOf, tyOf, zoomOf]
  · intro p
    simp [overlayToScreen, svgTranslateScale, txOf, tyOf, zoomOf]

/-- C6: the dispersion engine outputs nothing when the ray list is empty,
when the dispersive-component list is empty, or when every dispersive
component is strictly farther than the threshold 24 from every ray segment;
conversely every emitted polyline comes from a `(segment, component)` pair
within the threshold. -/
theorem c6_dispersion_empty_and_threshold (rays : List Ray) (prisms : List Component) :
    dispersionPolys [] prisms = [] ∧
    dispersionPolys rays [] = [] ∧
    ((∀ prism ∈ prisms, ∀ ray ∈ rays, ∀ seg ∈ raySegments ray.points,
        24 < distancePointToSegment prism.position.x prism.position.y
          seg.2.1.x seg.2.1.y seg.2.2.x seg.2.2.y) →
      dispersionPolys rays prisms = []) ∧
    (∀ q ∈ dispersionPolys rays prisms,
      ∃ ray ∈ rays, ∃ seg ∈ raySegments ray.points, ∃ prism ∈ prisms,
        distancePointToSegment prism.position.x prism.position.y
            seg.2.1.x seg.2.1.y seg.2.2.x seg.2.2.y ≤ 24 ∧
          q ∈ segPrismPolys ray.id seg.1 seg.2.1 seg.2.2 prism) := by
  refine ⟨by simp [dispersionPolys], by simp [dispersionPolys], ?_, ?_⟩
  · intro hfar
    unfold dispersionPolys
    split_ifs with hempty
    · rfl
    · apply List.eq_nil_iff_forall_not_mem.mpr
      intro q hq
      obtain ⟨ray, hray, hq⟩ := List.mem_flatMap.mp hq
      obtain ⟨seg, hseg, hq⟩ := List.mem_flatMap.mp hq
      obtain ⟨prism, hprism, hq⟩ := List.mem_flatMap.mp hq
      have hd := hfar prism hprism ray hray seg hseg
      unfold segPrismPolys at hq
      rw [if_neg (not_le.mpr hd)] at hq
      exact List.not_mem_nil q hq
  · intro q hq
    unfold dispersionPolys at hq
    split_ifs at hq with hempty
    · exact absurd hq (List.not_mem_nil q)
    · obtain ⟨ray, hray, hq⟩ := List.mem_flatMap.mp hq
      obtain ⟨seg, hseg, hq⟩ := List.mem_flatMap.mp hq
      obtain ⟨prism, hprism, hq⟩ := List.mem_flatMap.mp hq
      refine ⟨ray, hray, seg, hseg, prism, hprism, ?_, hq⟩
      by_contra hd
      unfold segPrismPolys at hq
      rw [if_neg hd] at hq
      exact List.not_mem_nil q hq

/-- C6 witness: with one ray whose only segment is 1000 units from the one
prism at the origin, the engine's output is empty. -/
theorem c6_dispersion_empty_and_threshold_witness :
    dispersionPolys [wFarRay] [wPrism] = [] :=
  (c6_dispersion_empty_and_threshold [wFarRay] [wPrism]).2.2.1 (by
    intro prism hprism ray hray seg hseg
    simp only [List.mem_singleton] at hprism hray
    subst hprism hray
    simp only [wFarRay, raySegments, List.zip, List.enum, List.map] at hseg
    simp only [List.mem_singleton] at hseg
    subst hseg
    show 24 < distancePointToSegment 0 0 1000 0 1000 1
    have h : distancePointToSegment 0 0 1000 0 1000 1 = 1000 := by
      norm_num [distancePointToSegment]
      rw [show (1000000 : ℝ) = 1000 ^ 2 by norm_num]
      exact Real.sqrt_sq (by norm_num)
    rw [h]; norm_num)

/-- C7: exporting and re-importing a setup is semantically lossless — the
component list (hence every id, position, rotation, kind and properties
bundle, and the count `N`) and the sweep settings come back identical. -/
theorem c7_export_import_roundtrip (ρ : Type) (s : Shell.AppState ρ) :
    (Shell.roundTrip s).1.components = s.components ∧
    (Shell.roundTrip s).1.components.length = s.components.length ∧
    (Shell.roundTrip s).1.simulationSettings = s.simulationSettings :=
  ⟨rfl, rfl, rfl⟩

/-- C8 counterexample: importing a parseable file with a missing
`components` array over a state holding a simulation result and a selection
clears both and fires no alert — contrary to the claim that the whole state
stays unmodified and an error is surfaced. -/
theorem c8_counterexample :
    Shell.importSetup (ρ := ℕ) (.parsed .absent none none) wState =
      ({ components := [wMirror], selectedId := none,
         simulationSettings := { freqStart := 400, freqStop := 700, freqPoints := 10 },
         simulationResult := none }, false) ∧
    wState.simulationResult = some 7 ∧ wState.selectedId = some "m1" :=
  ⟨rfl, rfl, rfl⟩

/-- C8 (amended): only an unparseable file surfaces the alert and leaves
the state unmodified; a parseable file whose `components` field is missing
or not an array leaves the component list unchanged but clears the stored
simulation result and the selection, applies any settings present, and
fires no alert. -/
theorem c8_import_error_handling (ρ : Type) (s : Shell.AppState ρ)
    (comps : Shell.JsonField (List Registry.RComponent)) (ss st : Option Shell.Settings)
    (hnv : ∀ l, comps ≠ Shell.JsonField.value l) :
    Shell.importSetup .unparseable s = (s, true) ∧
    (Shell.importSetup (.parsed comps ss st) s).1.components = s.components ∧
    (Shell.importSetup (.parsed comps ss st) s).1.simulationResult = none ∧
    (Shell.importSetup (.parsed comps ss st) s).1.selectedId = none ∧
    (Shell.importSetup (.parsed comps ss st) s).2 = false ∧
    (Shell.importSetup (.parsed comps ss st) s).1.simulationSettings =
      ((ss.orElse fun _ => st).getD s.simulationSettings) := by
  refine ⟨rfl, ?_, rfl, rfl, rfl, rfl⟩
  cases comps with
  | value l => exact absurd rfl (hnv l)
  | absent => rfl
  | invalid => rfl

/-- C8 witness: importing `{}` (no components field) over the state with a
stored result leaves the component list intact but clears the result. -/
theorem c8_import_error_handling_witness :
    (Shell.importSetup (ρ := ℕ) (.parsed .absent none none) wState).1.simulationResult =
      none :=
  (c8_import_error_handling ℕ wState .absent none none (fun l h => by cases h)).2.2.1

/-- C9 counterexample: in the interleaving "run 1 starts, run 2 starts,
run 1's response arrives", the earlier-started call's response IS stored
(the result becomes `some 11`), contradicting the claim that a response
arriving after a later run started is discarded and never applied. -/
theorem c9_counterexample :
    Shell.runTrace (ρ := ℕ) { result := none, isSimulating := false }
        [.start 1, .start 2, .complete 1 11] =
      { result := some 11, isSimulating := false } ∧
    (some 11 ≠ (none : Option ℕ)) :=
  ⟨rfl, by simp⟩

/-- C9 (amended): overlapping runs resolve last-completed-wins — every
arriving success response is stored unconditionally (no staleness check),
so after trailing events without successful completions the stored result
is the payload of the last response to arrive, regardless of start order. -/
theorem c9_last_completed_wins (ρ : Type) (s : Shell.GState ρ)
    (pre post : List (Shell.GEvent ρ)) (cid : ℕ) (r : ρ)
    (hpost : ∀ e ∈ post, e.isComplete = false) :
    (Shell.runTrace s (pre ++ Shell.GEvent.complete cid r :: post)).result = some r ∧
    ∀ s' : Shell.GState ρ, (Shell.gstep s' (Shell.GEvent.complete cid r)).result = some r := by
  refine ⟨?_, fun s' => rfl⟩
  have hsplit : Shell.runTrace s (pre ++ Shell.GEvent.complete cid r :: post) =
      Shell.runTrace (Shell.gstep (Shell.runTrace s pre) (Shell.GEvent.complete cid r)) post := by
    simp [Shell.runTrace, List.foldl_append]
  rw [hsplit, runTrace_no_complete post _ hpost]
  rfl

/-- C9 witness: run 1 starts, run 2 starts, run 2's response arrives, then
run 1 fails; the stored result is run 2's payload. -/
theorem c9_last_completed_wins_witness :
    (Shell.runTrace (ρ := ℕ) { result := none, isSimulating := false }
        ([Shell.GEvent.start 1, Shell.GEvent.start 2] ++
          Shell.GEvent.complete 2 5 :: [Shell.GEvent.fail 1])).result = some 5 :=
  (c9_last_completed_wins ℕ { result := none, isSimulating := false }
    [Shell.GEvent.start 1, Shell.GEvent.start 2] [Shell.GEvent.fail 1] 2 5 (by decide)).1

/-- C10: for a degenerate segment (`p1 = p2 = p`) within the threshold of a
dispersive component, the engine still emits 6 polylines, but the
`segLen || 1` fallback zeroes the direction, so both points of every
polyline equal the component's position and the length is 0, not 240. -/
theorem c10_degenerate_segment_fan (rid : String) (i : ℕ) (p : Pt) (c : Component)
    (hnear : distancePointToSegment c.position.x c.position.y p.x p.y p.x p.y ≤ 24) :
    (segPrismPolys rid i p p c).length = 6 ∧
    ∀ q ∈ segPrismPolys rid i p p c,
      q.points = [c.position, c.position] ∧ polyLength q = 0 := by
  have hout : segPrismPolys rid i p p c =
      (List.range 6).map fun k => dispSubRay rid i k c.position 0 0 := by
    simp only [segPrismPolys, sub_self, mul_zero, add_zero, Real.sqrt_zero, if_pos,
      zero_div, if_pos hnear]
    rfl
  have hsub : ∀ k : ℕ, dispSubRay rid i k c.position 0 0 =
      { id := "disp-" ++ rid ++ "-" ++ toString i ++ "-" ++ toString k
        points := [c.position, c.position]
        color := spectralColors.getD k emptyStr
        opacity := 0.85
        width := 2 } := by
    intro k
    simp [dispSubRay]
  refine ⟨by rw [hout]; simp, ?_⟩
  intro q hq
  rw [hout] at hq
  obtain ⟨k, hk, rfl⟩ := List.mem_map.mp hq
  rw [hsub k]
  exact ⟨rfl, by simp [polyLength, eucDist]⟩

/-- C10 witness: a degenerate segment at the origin, with the prism also at
the origin (distance 0 ≤ 24), still yields 6 polylines. -/
theorem c10_degenerate_segment_fan_witness :
    (segPrismPolys "ray1" 0 { x := 0, y := 0 } { x := 0, y := 0 } wPrism).length = 6 :=
  (c10_degenerate_segment_fan "ray1" 0 { x := 0, y := 0 } wPrism
    (by
      show distancePointToSegment 0 0 0 0 0 0 ≤ 24
      have h : distancePointToSegment 0 0 0 0 0 0 = 0 := by
        norm_num [distancePointToSegment]
      rw [h]; norm_num)).1

end PhysicsSim
